import Mathlib

/-!
Shallow embedding of `httpstat.go` (go-httpstat). The source file holds two
revisions of the package: a newer, per-phase revision (structure `Result`
with `DNSLookup`, `TCPConnection`, ..., embedded in namespace `Httpstat`)
and an older, coarser revision (embedded in namespace `HttpstatOld`).

Instants (`time.Time`) are modelled as `Nat`, with `0` playing the role of
Go's zero time (`IsZero` becomes `= 0`; `time.Now()` never returns the zero
time, which the theorems state as positivity hypotheses on event
timestamps). Durations (`time.Duration`) are `Int`, and `t1.Sub(t2)` is
integer subtraction after casting.
-/

/-- `a.Sub b` on instants: Go `time.Time.Sub` as integer subtraction. -/
def tsub (a b : Nat) : Int := (a : Int) - (b : Int)

/-- `strings.Split(s, ":")[0]`: the part of `s` before the first colon
(the whole string when there is no colon). -/
def hostOf (s : String) : String := String.mk (s.toList.takeWhile (fun c => c ≠ ':'))

/-- The httptrace lifecycle events the two revisions install hooks for.
`got_conn` carries the `Reused` flag and the local/remote socket addresses
of `GotConnInfo`. -/
inductive Ev where
  | dns_start
  | dns_done
  | connect_start
  | connect_done
  | tls_start
  | tls_done
  | got_conn (reused : Bool) (localA remoteA : String)
  | wrote_request
  | first_byte
deriving DecidableEq, Repr

namespace Httpstat

/-- The newer revision's `Result` struct: cumulative checkpoints, per-phase
durations, addresses, and one instant per lifecycle boundary. All fields
start at Go's zero values. -/
structure Result where
  NameLookup    : Int := 0
  Connect       : Int := 0
  PreTransfer   : Int := 0
  StartTransfer : Int := 0
  total         : Int := 0
  DNSLookup        : Int := 0
  TCPConnection    : Int := 0
  TLSHandshake     : Int := 0
  ServerProcessing : Int := 0
  contentTransfer  : Int := 0
  localAddr  : String := ""
  remoteAddr : String := ""
  dnsStart      : Nat := 0
  dnsDone       : Nat := 0
  tcpStart      : Nat := 0
  tcpDone       : Nat := 0
  tlsStart      : Nat := 0
  tlsDone       : Nat := 0
  serverStart   : Nat := 0
  serverDone    : Nat := 0
  transferStart : Nat := 0
  transferDone  : Nat := 0
  isTLS    : Bool := false
  isReused : Bool := false
deriving DecidableEq, Repr

/-- One httptrace callback of the newer revision's `WithHTTPStat`, fired at
instant `now` (the value `time.Now()` returns inside the hook). -/
def step (r : Result) (e : Ev) (now : Nat) : Result :=
  match e with
  | .dns_start =>
      { r with dnsStart := now }
  | .dns_done =>
      let r := { r with dnsDone := now }
      let r := { r with DNSLookup := tsub r.dnsDone r.dnsStart }
      { r with NameLookup := r.DNSLookup }
  | .connect_start =>
      let r := { r with tcpStart := now }
      if r.dnsStart = 0 then
        { r with dnsStart := r.tcpStart, dnsDone := r.tcpStart }
      else r
  | .connect_done =>
      let r := { r with tcpDone := now }
      { r with TCPConnection := tsub r.tcpDone r.tcpStart,
               Connect := tsub r.tcpDone r.dnsStart }
  | .tls_start =>
      { r with isTLS := true, tlsStart := now }
  | .tls_done =>
      let r := { r with tlsDone := now }
      { r with TLSHandshake := tsub r.tlsDone r.tlsStart,
               PreTransfer := tsub r.tlsDone r.dnsStart }
  | .got_conn reused localA remoteA =>
      let r := if reused then { r with isReused := true } else r
      { r with localAddr := hostOf localA, remoteAddr := hostOf remoteA }
  | .wrote_request =>
      let r := { r with serverStart := now }
      let r :=
        if r.dnsStart = 0 ∧ r.tcpStart = 0 then
          { r with dnsStart := now, dnsDone := now, tcpStart := now, tcpDone := now }
        else r
      let r :=
        if r.isReused then
          { r with dnsStart := now, dnsDone := now, tcpStart := now,
                   tcpDone := now, tlsStart := now, tlsDone := now }
        else r
      if r.isTLS then r
      else
        { r with TLSHandshake := tsub r.tcpDone r.tcpDone,
                 PreTransfer := r.Connect }
  | .first_byte =>
      let r := { r with serverDone := now }
      { r with ServerProcessing := tsub r.serverDone r.serverStart,
               StartTransfer := tsub r.serverDone r.dnsStart,
               transferStart := r.serverDone }

/-- Feed a list of timed events to a fresh `Result` through the hooks. -/
def run (evs : List (Ev × Nat)) : Result :=
  evs.foldl (fun r p => step r p.1 p.2) {}

/-- Newer revision's `Result.End`. -/
def Result.End (r : Result) (t : Nat) : Result :=
  let r := { r with transferDone := t }
  if r.dnsStart = 0 then r
  else
    { r with contentTransfer := tsub r.transferDone r.transferStart,
             total := tsub r.transferDone r.dnsStart }

/-- Newer revision's as-of-time `Result.ContentTransfer`. -/
def Result.ContentTransfer (r : Result) (t : Nat) : Int := tsub t r.serverDone

/-- Newer revision's as-of-time `Result.Total`. -/
def Result.Total (r : Result) (t : Nat) : Int := tsub t r.dnsStart

/-- Newer revision's `LocalIp` accessor. -/
def Result.LocalIp (r : Result) : String := r.localAddr

/-- Newer revision's `RemoteIP` accessor (which reads `localAddr` in the
source of this revision). -/
def Result.RemoteIP (r : Result) : String := r.localAddr

end Httpstat

namespace HttpstatOld

/-- The older revision's `Result` struct together with the closure-local
variables of its `WithHTTPStat` (dnsStart .. serverDone, isTLS, isReused),
which live for exactly one request alongside the struct. -/
structure State where
  NameLookup    : Int := 0
  Connect       : Int := 0
  PreTransfer   : Int := 0
  StartTransfer : Int := 0
  total         : Int := 0
  localAddr  : String := ""
  remoteAddr : String := ""
  start        : Nat := 0
  transferDone : Nat := 0
  dnsStart    : Nat := 0
  dnsDone     : Nat := 0
  tcpStart    : Nat := 0
  tcpDone     : Nat := 0
  tlsDone     : Nat := 0
  serverStart : Nat := 0
  serverDone  : Nat := 0
  isTLS    : Bool := false
  isReused : Bool := false
deriving DecidableEq, Repr

/-- One httptrace callback of the older revision's `WithHTTPStat`. Its
duration fields accumulate with `+=`, its anchor is the separate `start`
instant, and its reused-connection handling stamps instants already at the
connection-acquired event. -/
def step (r : State) (e : Ev) (now : Nat) : State :=
  match e with
  | .dns_start =>
      let r := { r with dnsStart := now }
      if r.start = 0 then { r with start := r.dnsStart } else r
  | .dns_done =>
      let r := { r with dnsDone := now }
      { r with NameLookup := r.NameLookup + tsub r.dnsDone r.dnsStart }
  | .connect_start =>
      let r := { r with tcpStart := now }
      let r :=
        if r.dnsStart = 0 then
          { r with dnsStart := r.tcpStart, dnsDone := r.tcpStart }
        else r
      if r.start = 0 then { r with start := r.tcpStart } else r
  | .connect_done =>
      let r := { r with tcpDone := now }
      { r with Connect := r.Connect + tsub r.tcpDone r.dnsStart }
  | .tls_start =>
      { r with isTLS := true }
  | .tls_done =>
      let r := { r with tlsDone := now }
      { r with PreTransfer := r.PreTransfer + tsub r.tlsDone r.dnsStart }
  | .got_conn reused localA remoteA =>
      let gotC := now
      let r :=
        if reused then
          let r := { r with isReused := true }
          let r :=
            if r.dnsStart = 0 then { r with dnsStart := gotC, dnsDone := gotC }
            else r
          if r.start = 0 then { r with start := gotC } else r
        else r
      { r with localAddr := hostOf localA, remoteAddr := hostOf remoteA }
  | .wrote_request =>
      let r := { r with serverStart := now }
      let r :=
        if r.dnsStart = 0 ∧ r.tcpStart = 0 then
          { r with dnsStart := now, dnsDone := now, tcpStart := now, tcpDone := now }
        else r
      let r :=
        if r.isReused then
          { r with dnsStart := now, dnsDone := now, tcpStart := now,
                   tcpDone := now, tlsDone := now }
        else r
      if r.isTLS then r
      else { r with PreTransfer := r.PreTransfer + r.Connect }
  | .first_byte =>
      let r := { r with serverDone := now }
      { r with StartTransfer := r.StartTransfer + tsub r.serverDone r.dnsStart }

/-- Feed a list of timed events to a fresh older-revision state. -/
def run (evs : List (Ev × Nat)) : State :=
  evs.foldl (fun r p => step r p.1 p.2) {}

/-- Older revision's `Result.End` (anchored at `start`). -/
def State.End (r : State) (t : Nat) : State :=
  let r := { r with transferDone := t }
  if r.start = 0 then r
  else { r with total := tsub r.transferDone r.start }

/-- Older revision's `LocalIp` accessor. -/
def State.LocalIp (r : State) : String := r.localAddr

/-- Older revision's `RemoteIP` accessor (reads `remoteAddr`). -/
def State.RemoteIP (r : State) : String := r.remoteAddr

end HttpstatOld

open Httpstat

/-- The full well-formed lifecycle sequence DNS-start, DNS-done,
Connect-start, Connect-done, TLS-start, TLS-done, Request-written,
First-response-byte at the given instants. -/
def fullSeq (t1 t2 t3 t4 t5 t6 t7 t8 : Nat) : List (Ev × Nat) :=
  [(.dns_start, t1), (.dns_done, t2), (.connect_start, t3),
   (.connect_done, t4), (.tls_start, t5), (.tls_done, t6),
   (.wrote_request, t7), (.first_byte, t8)]

/-- The reused-connection sequence: Connection-acquired(reused),
Request-written, First-response-byte. -/
def reusedSeq (la ra : String) (t1 t2 t3 : Nat) : List (Ev × Nat) :=
  [(.got_conn true la ra, t1), (.wrote_request, t2), (.first_byte, t3)]

/-- The no-DNS (bare IP) sequence: Connect-start, Connect-done,
Request-written, First-response-byte, with no DNS events. -/
def bareIPSeq (t1 t2 t3 t4 : Nat) : List (Ev × Nat) :=
  [(.connect_start, t1), (.connect_done, t2), (.wrote_request, t3),
   (.first_byte, t4)]

/-- The plain-HTTP sequence: full DNS and Connect events, no TLS events,
then Request-written. -/
def plainSeq (t1 t2 t3 t4 t5 : Nat) : List (Ev × Nat) :=
  [(.dns_start, t1), (.dns_done, t2), (.connect_start, t3),
   (.connect_done, t4), (.wrote_request, t5)]

/-- C1: for the well-formed event sequence DNS-start, DNS-done,
Connect-start, Connect-done, TLS-start, TLS-done, Request-written,
First-response-byte, End, with non-decreasing positive timestamps, every
phase duration (DNSLookup, TCPConnection, TLSHandshake, ServerProcessing,
ContentTransfer) is nonnegative and the cumulative checkpoints satisfy
NameLookup ≤ Connect ≤ PreTransfer ≤ StartTransfer ≤ Total. -/
theorem full_sequence_monotone (t1 t2 t3 t4 t5 t6 t7 t8 t9 : Nat)
    (h0 : 0 < t1) (h12 : t1 ≤ t2) (h23 : t2 ≤ t3) (h34 : t3 ≤ t4)
    (h45 : t4 ≤ t5) (h56 : t5 ≤ t6) (h67 : t6 ≤ t7) (h78 : t7 ≤ t8)
    (h89 : t8 ≤ t9) :
    (0 ≤ ((run (fullSeq t1 t2 t3 t4 t5 t6 t7 t8)).End t9).DNSLookup ∧
      0 ≤ ((run (fullSeq t1 t2 t3 t4 t5 t6 t7 t8)).End t9).TCPConnection ∧
      0 ≤ ((run (fullSeq t1 t2 t3 t4 t5 t6 t7 t8)).End t9).TLSHandshake ∧
      0 ≤ ((run (fullSeq t1 t2 t3 t4 t5 t6 t7 t8)).End t9).ServerProcessing ∧
      0 ≤ ((run (fullSeq t1 t2 t3 t4 t5 t6 t7 t8)).End t9).contentTransfer) ∧
    (0 ≤ ((run (fullSeq t1 t2 t3 t4 t5 t6 t7 t8)).End t9).NameLookup ∧
      ((run (fullSeq t1 t2 t3 t4 t5 t6 t7 t8)).End t9).NameLookup ≤
        ((run (fullSeq t1 t2 t3 t4 t5 t6 t7 t8)).End t9).Connect ∧
      ((run (fullSeq t1 t2 t3 t4 t5 t6 t7 t8)).End t9).Connect ≤
        ((run (fullSeq t1 t2 t3 t4 t5 t6 t7 t8)).End t9).PreTransfer ∧
      ((run (fullSeq t1 t2 t3 t4 t5 t6 t7 t8)).End t9).PreTransfer ≤
        ((run (fullSeq t1 t2 t3 t4 t5 t6 t7 t8)).End t9).StartTransfer ∧
      ((run (fullSeq t1 t2 t3 t4 t5 t6 t7 t8)).End t9).StartTransfer ≤
        ((run (fullSeq t1 t2 t3 t4 t5 t6 t7 t8)).End t9).total) := by
  have h1 : t1 ≠ 0 := Nat.pos_iff_ne_zero.mp h0
  simp [fullSeq, run, step, Result.End, tsub, h1]
  omega

/-- C1 witness at the concrete timestamps 1..9. -/
theorem full_sequence_monotone_witness :
    (0 ≤ ((run (fullSeq 1 2 3 4 5 6 7 8)).End 9).DNSLookup ∧
      0 ≤ ((run (fullSeq 1 2 3 4 5 6 7 8)).End 9).TCPConnection ∧
      0 ≤ ((run (fullSeq 1 2 3 4 5 6 7 8)).End 9).TLSHandshake ∧
      0 ≤ ((run (fullSeq 1 2 3 4 5 6 7 8)).End 9).ServerProcessing ∧
      0 ≤ ((run (fullSeq 1 2 3 4 5 6 7 8)).End 9).contentTransfer) ∧
    (0 ≤ ((run (fullSeq 1 2 3 4 5 6 7 8)).End 9).NameLookup ∧
      ((run (fullSeq 1 2 3 4 5 6 7 8)).End 9).NameLookup ≤
        ((run (fullSeq 1 2 3 4 5 6 7 8)).End 9).Connect ∧
      ((run (fullSeq 1 2 3 4 5 6 7 8)).End 9).Connect ≤
        ((run (fullSeq 1 2 3 4 5 6 7 8)).End 9).PreTransfer ∧
      ((run (fullSeq 1 2 3 4 5 6 7 8)).End 9).PreTransfer ≤
        ((run (fullSeq 1 2 3 4 5 6 7 8)).End 9).StartTransfer ∧
      ((run (fullSeq 1 2 3 4 5 6 7 8)).End 9).StartTransfer ≤
        ((run (fullSeq 1 2 3 4 5 6 7 8)).End 9).total) :=
  full_sequence_monotone 1 2 3 4 5 6 7 8 9 (by decide) (by decide) (by decide)
    (by decide) (by decide) (by decide) (by decide) (by decide) (by decide)

/-- C2 counterexample: for the reused-connection sequence
Connection-acquired(reused) at 1, Request-written at 3, First-byte at 5,
End at 7, the code gives StartTransfer = 5 - 3 (serverDone minus the
request-written instant), not 5 - 1 (serverDone minus the
connection-acquired instant) as the claim states. -/
theorem reused_starttransfer_not_connacquired :
    ((run (reusedSeq "" "" 1 3 5)).End 7).StartTransfer ≠ (5 : Int) - 1 := by
  decide

/-- C2 amended: if the connection-acquired event reports reuse, the
DNS/TCP/TLS instants are synthesized at the Request-written event to equal
the request-written instant (serverStart), not the connection-acquired
instant; so for Connection-acquired(reused) at t1, Request-written at t2,
First-byte at t3, End at t4, DNSLookup = TCPConnection = TLSHandshake = 0
and StartTransfer = serverDone - serverStart = t3 - t2 ≤ total. -/
theorem reused_connection_phases (t1 t2 t3 t4 : Nat) (la ra : String)
    (h0 : 0 < t1) (h12 : t1 ≤ t2) (h23 : t2 ≤ t3) (h34 : t3 ≤ t4) :
    ((run (reusedSeq la ra t1 t2 t3)).End t4).DNSLookup = 0 ∧
    ((run (reusedSeq la ra t1 t2 t3)).End t4).TCPConnection = 0 ∧
    ((run (reusedSeq la ra t1 t2 t3)).End t4).TLSHandshake = 0 ∧
    ((run (reusedSeq la ra t1 t2 t3)).End t4).dnsStart = t2 ∧
    ((run (reusedSeq la ra t1 t2 t3)).End t4).dnsDone = t2 ∧
    ((run (reusedSeq la ra t1 t2 t3)).End t4).tcpStart = t2 ∧
    ((run (reusedSeq la ra t1 t2 t3)).End t4).tcpDone = t2 ∧
    ((run (reusedSeq la ra t1 t2 t3)).End t4).tlsStart = t2 ∧
    ((run (reusedSeq la ra t1 t2 t3)).End t4).tlsDone = t2 ∧
    ((run (reusedSeq la ra t1 t2 t3)).End t4).serverStart = t2 ∧
    ((run (reusedSeq la ra t1 t2 t3)).End t4).StartTransfer =
      tsub ((run (reusedSeq la ra t1 t2 t3)).End t4).serverDone
        ((run (reusedSeq la ra t1 t2 t3)).End t4).serverStart ∧
    ((run (reusedSeq la ra t1 t2 t3)).End t4).StartTransfer = tsub t3 t2 ∧
    ((run (reusedSeq la ra t1 t2 t3)).End t4).StartTransfer ≤
      ((run (reusedSeq la ra t1 t2 t3)).End t4).total := by
  have h2 : t2 ≠ 0 := by omega
  simp [reusedSeq, run, step, Result.End, tsub, h2]
  omega

/-- C2 amended witness at t1 = 1, t2 = 3, t3 = 5, t4 = 7. -/
theorem reused_connection_phases_witness :
    ((run (reusedSeq "10.0.0.1:5" "10.0.0.2:80" 1 3 5)).End 7).DNSLookup = 0 ∧
    ((run (reusedSeq "10.0.0.1:5" "10.0.0.2:80" 1 3 5)).End 7).TCPConnection = 0 ∧
    ((run (reusedSeq "10.0.0.1:5" "10.0.0.2:80" 1 3 5)).End 7).TLSHandshake = 0 ∧
    ((run (reusedSeq "10.0.0.1:5" "10.0.0.2:80" 1 3 5)).End 7).dnsStart = 3 ∧
    ((run (reusedSeq "10.0.0.1:5" "10.0.0.2:80" 1 3 5)).End 7).dnsDone = 3 ∧
    ((run (reusedSeq "10.0.0.1:5" "10.0.0.2:80" 1 3 5)).End 7).tcpStart = 3 ∧
    ((run (reusedSeq "10.0.0.1:5" "10.0.0.2:80" 1 3 5)).End 7).tcpDone = 3 ∧
    ((run (reusedSeq "10.0.0.1:5" "10.0.0.2:80" 1 3 5)).End 7).tlsStart = 3 ∧
    ((run (reusedSeq "10.0.0.1:5" "10.0.0.2:80" 1 3 5)).End 7).tlsDone = 3 ∧
    ((run (reusedSeq "10.0.0.1:5" "10.0.0.2:80" 1 3 5)).End 7).serverStart = 3 ∧
    ((run (reusedSeq "10.0.0.1:5" "10.0.0.2:80" 1 3 5)).End 7).StartTransfer =
      tsub ((run (reusedSeq "10.0.0.1:5" "10.0.0.2:80" 1 3 5)).End 7).serverDone
        ((run (reusedSeq "10.0.0.1:5" "10.0.0.2:80" 1 3 5)).End 7).serverStart ∧
    ((run (reusedSeq "10.0.0.1:5" "10.0.0.2:80" 1 3 5)).End 7).StartTransfer =
      tsub 5 3 ∧
    ((run (reusedSeq "10.0.0.1:5" "10.0.0.2:80" 1 3 5)).End 7).StartTransfer ≤
      ((run (reusedSeq "10.0.0.1:5" "10.0.0.2:80" 1 3 5)).End 7).total :=
  reused_connection_phases 1 3 5 7 "10.0.0.1:5" "10.0.0.2:80"
    (by decide) (by decide) (by decide) (by decide)

/-- C3: the as-of-time queries satisfy Total(t) = t - dnsStart and
ContentTransfer(t) = t - serverDone for every state; when the anchor
instant was never set (remains the zero instant) each returns the
degenerate duration t - 0, and neither can fail (both are total
functions). -/
theorem asof_queries_contract (r : Result) (t : Nat) :
    r.Total t = tsub t r.dnsStart ∧
    r.ContentTransfer t = tsub t r.serverDone ∧
    (r.dnsStart = 0 → r.Total t = (t : Int)) ∧
    (r.serverDone = 0 → r.ContentTransfer t = (t : Int)) := by
  refine ⟨rfl, rfl, ?_, ?_⟩ <;> intro h <;>
    simp [Result.Total, Result.ContentTransfer, tsub, h]

/-- C3 witness on a fresh (all-unset) state at t = 5. -/
theorem asof_queries_contract_witness :
    ({} : Result).Total 5 = tsub 5 ({} : Result).dnsStart ∧
    ({} : Result).ContentTransfer 5 = tsub 5 ({} : Result).serverDone ∧
    (({} : Result).dnsStart = 0 → ({} : Result).Total 5 = (5 : Int)) ∧
    (({} : Result).serverDone = 0 → ({} : Result).ContentTransfer 5 = (5 : Int)) :=
  asof_queries_contract {} 5

/-- C4: for the no-DNS (bare IP) sequence Connect-start, Connect-done,
Request-written, First-byte, End with no DNS events, Connect-start
synthesizes dnsStart = dnsDone = tcpStart, so DNSLookup = 0 and
Connect = TCPConnection exactly. -/
theorem no_dns_dial (t1 t2 t3 t4 t5 : Nat) (h0 : 0 < t1) :
    ((run (bareIPSeq t1 t2 t3 t4)).End t5).dnsStart = t1 ∧
    ((run (bareIPSeq t1 t2 t3 t4)).End t5).dnsDone = t1 ∧
    ((run (bareIPSeq t1 t2 t3 t4)).End t5).tcpStart = t1 ∧
    ((run (bareIPSeq t1 t2 t3 t4)).End t5).DNSLookup = 0 ∧
    ((run (bareIPSeq t1 t2 t3 t4)).End t5).Connect =
      ((run (bareIPSeq t1 t2 t3 t4)).End t5).TCPConnection := by
  have h1 : t1 ≠ 0 := Nat.pos_iff_ne_zero.mp h0
  simp [bareIPSeq, run, step, Result.End, tsub, h1]

/-- C4 witness at timestamps 1..5. -/
theorem no_dns_dial_witness :
    ((run (bareIPSeq 1 2 3 4)).End 5).dnsStart = 1 ∧
    ((run (bareIPSeq 1 2 3 4)).End 5).dnsDone = 1 ∧
    ((run (bareIPSeq 1 2 3 4)).End 5).tcpStart = 1 ∧
    ((run (bareIPSeq 1 2 3 4)).End 5).DNSLookup = 0 ∧
    ((run (bareIPSeq 1 2 3 4)).End 5).Connect =
      ((run (bareIPSeq 1 2 3 4)).End 5).TCPConnection :=
  no_dns_dial 1 2 3 4 5 (by decide)

/-- C5: for the plain-HTTP sequence with full DNS and Connect events but no
TLS events, after Request-written TLSHandshake = 0 and
PreTransfer = Connect exactly. -/
theorem plain_http_no_tls (t1 t2 t3 t4 t5 : Nat) (h0 : 0 < t1) :
    (run (plainSeq t1 t2 t3 t4 t5)).TLSHandshake = 0 ∧
    (run (plainSeq t1 t2 t3 t4 t5)).PreTransfer =
      (run (plainSeq t1 t2 t3 t4 t5)).Connect := by
  have h1 : t1 ≠ 0 := Nat.pos_iff_ne_zero.mp h0
  simp [plainSeq, run, step, tsub, h1]

/-- C5 witness at timestamps 1..5. -/
theorem plain_http_no_tls_witness :
    (run (plainSeq 1 2 3 4 5)).TLSHandshake = 0 ∧
    (run (plainSeq 1 2 3 4 5)).PreTransfer =
      (run (plainSeq 1 2 3 4 5)).Connect :=
  plain_http_no_tls 1 2 3 4 5 (by decide)

/-- C6: for the full TLS sequence DNS-start, DNS-done, Connect-start,
Connect-done, TLS-start, TLS-done, Request-written, First-byte: after
First-byte, ServerProcessing = serverDone - serverStart,
StartTransfer = serverDone - dnsStart, transferStart = serverDone,
PreTransfer = tlsDone - dnsStart, and Connect ≤ PreTransfer. -/
theorem tls_path (t1 t2 t3 t4 t5 t6 t7 t8 : Nat)
    (h0 : 0 < t1) (h12 : t1 ≤ t2) (h23 : t2 ≤ t3) (h34 : t3 ≤ t4)
    (h45 : t4 ≤ t5) (h56 : t5 ≤ t6) (h67 : t6 ≤ t7) (h78 : t7 ≤ t8) :
    (run (fullSeq t1 t2 t3 t4 t5 t6 t7 t8)).ServerProcessing =
      tsub (run (fullSeq t1 t2 t3 t4 t5 t6 t7 t8)).serverDone
        (run (fullSeq t1 t2 t3 t4 t5 t6 t7 t8)).serverStart ∧
    (run (fullSeq t1 t2 t3 t4 t5 t6 t7 t8)).ServerProcessing = tsub t8 t7 ∧
    (run (fullSeq t1 t2 t3 t4 t5 t6 t7 t8)).StartTransfer =
      tsub (run (fullSeq t1 t2 t3 t4 t5 t6 t7 t8)).serverDone
        (run (fullSeq t1 t2 t3 t4 t5 t6 t7 t8)).dnsStart ∧
    (run (fullSeq t1 t2 t3 t4 t5 t6 t7 t8)).StartTransfer = tsub t8 t1 ∧
    (run (fullSeq t1 t2 t3 t4 t5 t6 t7 t8)).transferStart =
      (run (fullSeq t1 t2 t3 t4 t5 t6 t7 t8)).serverDone ∧
    (run (fullSeq t1 t2 t3 t4 t5 t6 t7 t8)).PreTransfer =
      tsub (run (fullSeq t1 t2 t3 t4 t5 t6 t7 t8)).tlsDone
        (run (fullSeq t1 t2 t3 t4 t5 t6 t7 t8)).dnsStart ∧
    (run (fullSeq t1 t2 t3 t4 t5 t6 t7 t8)).PreTransfer = tsub t6 t1 ∧
    (run (fullSeq t1 t2 t3 t4 t5 t6 t7 t8)).Connect ≤
      (run (fullSeq t1 t2 t3 t4 t5 t6 t7 t8)).PreTransfer := by
  have h1 : t1 ≠ 0 := Nat.pos_iff_ne_zero.mp h0
  simp [fullSeq, run, step, tsub, h1]
  omega

/-- C6 witness at timestamps 1..8. -/
theorem tls_path_witness :
    (run (fullSeq 1 2 3 4 5 6 7 8)).ServerProcessing =
      tsub (run (fullSeq 1 2 3 4 5 6 7 8)).serverDone
        (run (fullSeq 1 2 3 4 5 6 7 8)).serverStart ∧
    (run (fullSeq 1 2 3 4 5 6 7 8)).ServerProcessing = tsub 8 7 ∧
    (run (fullSeq 1 2 3 4 5 6 7 8)).StartTransfer =
      tsub (run (fullSeq 1 2 3 4 5 6 7 8)).serverDone
        (run (fullSeq 1 2 3 4 5 6 7 8)).dnsStart ∧
    (run (fullSeq 1 2 3 4 5 6 7 8)).StartTransfer = tsub 8 1 ∧
    (run (fullSeq 1 2 3 4 5 6 7 8)).transferStart =
      (run (fullSeq 1 2 3 4 5 6 7 8)).serverDone ∧
    (run (fullSeq 1 2 3 4 5 6 7 8)).PreTransfer =
      tsub (run (fullSeq 1 2 3 4 5 6 7 8)).tlsDone
        (run (fullSeq 1 2 3 4 5 6 7 8)).dnsStart ∧
    (run (fullSeq 1 2 3 4 5 6 7 8)).PreTransfer = tsub 6 1 ∧
    (run (fullSeq 1 2 3 4 5 6 7 8)).Connect ≤
      (run (fullSeq 1 2 3 4 5 6 7 8)).PreTransfer :=
  tls_path 1 2 3 4 5 6 7 8 (by decide) (by decide) (by decide) (by decide)
    (by decide) (by decide) (by decide) (by decide)

/-- C7: calling End(t) on a never-used Result (no prior events, dnsStart
unset) leaves every duration field — per-phase, cumulative, contentTransfer
and total — at zero, and cannot fail (End is a total function). -/
theorem end_on_fresh_result (t : Nat) :
    (({} : Result).End t).DNSLookup = 0 ∧
    (({} : Result).End t).TCPConnection = 0 ∧
    (({} : Result).End t).TLSHandshake = 0 ∧
    (({} : Result).End t).ServerProcessing = 0 ∧
    (({} : Result).End t).contentTransfer = 0 ∧
    (({} : Result).End t).NameLookup = 0 ∧
    (({} : Result).End t).Connect = 0 ∧
    (({} : Result).End t).PreTransfer = 0 ∧
    (({} : Result).End t).StartTransfer = 0 ∧
    (({} : Result).End t).total = 0 := by
  simp [Result.End]

/-- Generic fold invariant: a field that every permitted event's hook keeps
at value `z` is still `z` after feeding any list of permitted events. -/
theorem foldl_keeps {α : Type} (z : α) (f : Result → α) (p : Ev → Prop)
    (hstep : ∀ r e now, p e → f r = z → f (step r e now) = z) :
    ∀ (evs : List (Ev × Nat)) (r : Result), (∀ q ∈ evs, p q.1) →
      f r = z → f (evs.foldl (fun s q => step s q.1 q.2) r) = z := by
  intro evs
  induction evs with
  | nil => intro r _ h0; simpa using h0
  | cons q evs ih =>
      intro r hall h0
      simp only [List.foldl_cons]
      exact ih _ (fun q' hq' => hall q' (List.mem_cons_of_mem _ hq'))
        (hstep r q.1 q.2 (hall q (List.mem_cons_self _ _)) h0)

/-- Only the DNS-done hook writes `DNSLookup`. -/
theorem step_keeps_DNSLookup (r : Result) (e : Ev) (now : Nat)
    (h : e ≠ Ev.dns_done) (h0 : r.DNSLookup = 0) :
    (step r e now).DNSLookup = 0 := by
  cases e <;> simp_all [step] <;> split_ifs <;> simp_all

/-- Only the Connect-done hook writes `TCPConnection`. -/
theorem step_keeps_TCPConnection (r : Result) (e : Ev) (now : Nat)
    (h : e ≠ Ev.connect_done) (h0 : r.TCPConnection = 0) :
    (step r e now).TCPConnection = 0 := by
  cases e <;> simp_all [step] <;> split_ifs <;> simp_all [tsub]

/-- Without a TLS-done event `TLSHandshake` stays zero (the Request-written
hook may write it, but only as the always-zero `tcpDone - tcpDone`). -/
theorem step_keeps_TLSHandshake (r : Result) (e : Ev) (now : Nat)
    (h : e ≠ Ev.tls_done) (h0 : r.TLSHandshake = 0) :
    (step r e now).TLSHandshake = 0 := by
  cases e <;> simp_all [step] <;> split_ifs <;> simp_all [tsub]

/-- Only the First-byte hook writes `ServerProcessing`. -/
theorem step_keeps_ServerProcessing (r : Result) (e : Ev) (now : Nat)
    (h : e ≠ Ev.first_byte) (h0 : r.ServerProcessing = 0) :
    (step r e now).ServerProcessing = 0 := by
  cases e <;> simp_all [step] <;> split_ifs <;> simp_all

/-- Only the First-byte hook writes `StartTransfer`. -/
theorem step_keeps_StartTransfer (r : Result) (e : Ev) (now : Nat)
    (h : e ≠ Ev.first_byte) (h0 : r.StartTransfer = 0) :
    (step r e now).StartTransfer = 0 := by
  cases e <;> simp_all [step] <;> split_ifs <;> simp_all

/-- Only the First-byte hook writes `transferStart`. -/
theorem step_keeps_transferStart (r : Result) (e : Ev) (now : Nat)
    (h : e ≠ Ev.first_byte) (h0 : r.transferStart = 0) :
    (step r e now).transferStart = 0 := by
  cases e <;> simp_all [step] <;> split_ifs <;> simp_all

/-- No hook writes `contentTransfer` (only `End` does). -/
theorem step_keeps_contentTransfer (r : Result) (e : Ev) (now : Nat)
    (h0 : r.contentTransfer = 0) :
    (step r e now).contentTransfer = 0 := by
  cases e <;> simp_all [step] <;> split_ifs <;> simp_all

/-- C8 counterexample: for the truncated sequence DNS-start at 1 with no
First-response-byte event, calling End(10) leaves contentTransfer at
10 - 0 = 10, not zero as the claim states. -/
theorem content_transfer_after_truncation_nonzero :
    ((run [(.dns_start, 1)]).End 10).contentTransfer ≠ 0 := by
  decide

/-- C8 amended: for every truncated event sequence, each phase duration
whose terminal event never fired reads zero after End(t) — DNSLookup
without DNS-done, TCPConnection without Connect-done, TLSHandshake without
TLS-done, ServerProcessing and StartTransfer without First-byte — and no
accessor can error; however, when First-byte never fired but dnsStart was
set, contentTransfer after End(t) is the degenerate value t - 0 (t minus
the unset transferStart), not zero. -/
theorem truncated_event_streams (evs : List (Ev × Nat)) (t : Nat)
    (hfb : ∀ q ∈ evs, q.1 ≠ Ev.first_byte) :
    ((∀ q ∈ evs, q.1 ≠ Ev.dns_done) → ((run evs).End t).DNSLookup = 0) ∧
    ((∀ q ∈ evs, q.1 ≠ Ev.connect_done) → ((run evs).End t).TCPConnection = 0) ∧
    ((∀ q ∈ evs, q.1 ≠ Ev.tls_done) → ((run evs).End t).TLSHandshake = 0) ∧
    ((run evs).End t).ServerProcessing = 0 ∧
    ((run evs).End t).StartTransfer = 0 ∧
    ((run evs).End t).contentTransfer =
      (if (run evs).dnsStart = 0 then 0 else (t : Int)) := by
  have hsp := foldl_keeps (0 : Int) Result.ServerProcessing (fun e => e ≠ Ev.first_byte)
    step_keeps_ServerProcessing evs {} hfb rfl
  have hst := foldl_keeps (0 : Int) Result.StartTransfer (fun e => e ≠ Ev.first_byte)
    step_keeps_StartTransfer evs {} hfb rfl
  have hts := foldl_keeps (0 : Nat) Result.transferStart (fun e => e ≠ Ev.first_byte)
    step_keeps_transferStart evs {} hfb rfl
  have hct := foldl_keeps (0 : Int) Result.contentTransfer (fun _ => True)
    (fun r e now _ => step_keeps_contentTransfer r e now) evs {} (fun _ _ => trivial) rfl
  refine ⟨?_, ?_, ?_, ?_, ?_, ?_⟩
  · intro h
    have := foldl_keeps (0 : Int) Result.DNSLookup (fun e => e ≠ Ev.dns_done)
      step_keeps_DNSLookup evs {} h rfl
    simp only [run, Result.End] at *
    split_ifs <;> simpa using this
  · intro h
    have := foldl_keeps (0 : Int) Result.TCPConnection (fun e => e ≠ Ev.connect_done)
      step_keeps_TCPConnection evs {} h rfl
    simp only [run, Result.End] at *
    split_ifs <;> simpa using this
  · intro h
    have := foldl_keeps (0 : Int) Result.TLSHandshake (fun e => e ≠ Ev.tls_done)
      step_keeps_TLSHandshake evs {} h rfl
    simp only [run, Result.End] at *
    split_ifs <;> simpa using this
  · simp only [run, Result.End] at *
    split_ifs <;> simpa using hsp
  · simp only [run, Result.End] at *
    split_ifs <;> simpa using hst
  · simp only [run, Result.End] at *
    split_ifs with h <;> simp_all [tsub]

/-- C8 amended witness: the truncated sequence DNS-start at 1, End at 10. -/
theorem truncated_event_streams_witness :
    ((∀ q ∈ [((Ev.dns_start : Ev), (1 : Nat))], q.1 ≠ Ev.dns_done) →
      ((run [(.dns_start, 1)]).End 10).DNSLookup = 0) ∧
    ((∀ q ∈ [((Ev.dns_start : Ev), (1 : Nat))], q.1 ≠ Ev.connect_done) →
      ((run [(.dns_start, 1)]).End 10).TCPConnection = 0) ∧
    ((∀ q ∈ [((Ev.dns_start : Ev), (1 : Nat))], q.1 ≠ Ev.tls_done) →
      ((run [(.dns_start, 1)]).End 10).TLSHandshake = 0) ∧
    ((run [(.dns_start, 1)]).End 10).ServerProcessing = 0 ∧
    ((run [(.dns_start, 1)]).End 10).StartTransfer = 0 ∧
    ((run [(.dns_start, 1)]).End 10).contentTransfer =
      (if (run [(.dns_start, 1)]).dnsStart = 0 then 0 else (10 : Int)) :=
  truncated_event_streams [(.dns_start, 1)] 10 (by decide)

/-- C9 (code evaluated at the failing input): after a connection-acquired
event with local address "10.0.0.1:1234" and remote address
"93.184.216.34:443", the newer revision's RemoteIP returns "10.0.0.1" —
the local host, not the remote host — even though the remote host was
captured in remoteAddr; LocalIp returns the local host as specified, and
the older revision's RemoteIP at the same input returns the remote host,
confirming the intent. -/
theorem remoteip_returns_local_host :
    (run [(.got_conn false "10.0.0.1:1234" "93.184.216.34:443", 1)]).RemoteIP
      = "10.0.0.1" ∧
    (run [(.got_conn false "10.0.0.1:1234" "93.184.216.34:443", 1)]).RemoteIP
      ≠ "93.184.216.34" ∧
    (run [(.got_conn false "10.0.0.1:1234" "93.184.216.34:443", 1)]).remoteAddr
      = "93.184.216.34" ∧
    (run [(.got_conn false "10.0.0.1:1234" "93.184.216.34:443", 1)]).LocalIp
      = "10.0.0.1" ∧
    (HttpstatOld.run
      [(.got_conn false "10.0.0.1:1234" "93.184.216.34:443", 1)]).RemoteIP
      = "93.184.216.34" := by
  refine ⟨rfl, ?_, rfl, rfl, rfl⟩
  decide

/-- C10 counterexample: on the reused-connection sequence
Connection-acquired(reused) at 1, Request-written at 3, End at 10, the
older revision's End-computed total is 10 - 1 = 9 (anchored at the
connection-acquired instant) while the newer revision's is 10 - 3 = 7
(anchored at the request-written instant), so the revisions do not agree
on every event sequence. -/
theorem revisions_disagree_on_reused :
    ((HttpstatOld.run [(.got_conn true "" "", 1), (.wrote_request, 3)]).End 10).total ≠
    ((run [(.got_conn true "" "", 1), (.wrote_request, 3)]).End 10).total := by
  decide

/-- C10 amended: on well-formed fresh-connection sequences in which each
event fires at most once in causal order — such as the full
DNS→Connect→TLS→Request-written→First-byte→End sequence — the older and
newer revisions compute equal NameLookup, Connect, PreTransfer,
StartTransfer and End-computed total; they diverge on reused-connection
sequences (the older anchors total at the connection-acquired instant, the
newer at the request-written instant) and on duplicated events (the older
accumulates durations, the newer overwrites). -/
theorem revisions_agree_fresh_full (t1 t2 t3 t4 t5 t6 t7 t8 t9 : Nat)
    (h0 : 0 < t1) (h12 : t1 ≤ t2) (h23 : t2 ≤ t3) (h34 : t3 ≤ t4)
    (h45 : t4 ≤ t5) (h56 : t5 ≤ t6) (h67 : t6 ≤ t7) (h78 : t7 ≤ t8)
    (h89 : t8 ≤ t9) :
    ((HttpstatOld.run (fullSeq t1 t2 t3 t4 t5 t6 t7 t8)).End t9).NameLookup =
      ((run (fullSeq t1 t2 t3 t4 t5 t6 t7 t8)).End t9).NameLookup ∧
    ((HttpstatOld.run (fullSeq t1 t2 t3 t4 t5 t6 t7 t8)).End t9).Connect =
      ((run (fullSeq t1 t2 t3 t4 t5 t6 t7 t8)).End t9).Connect ∧
    ((HttpstatOld.run (fullSeq t1 t2 t3 t4 t5 t6 t7 t8)).End t9).PreTransfer =
      ((run (fullSeq t1 t2 t3 t4 t5 t6 t7 t8)).End t9).PreTransfer ∧
    ((HttpstatOld.run (fullSeq t1 t2 t3 t4 t5 t6 t7 t8)).End t9).StartTransfer =
      ((run (fullSeq t1 t2 t3 t4 t5 t6 t7 t8)).End t9).StartTransfer ∧
    ((HttpstatOld.run (fullSeq t1 t2 t3 t4 t5 t6 t7 t8)).End t9).total =
      ((run (fullSeq t1 t2 t3 t4 t5 t6 t7 t8)).End t9).total := by
  have h1 : t1 ≠ 0 := Nat.pos_iff_ne_zero.mp h0
  simp [fullSeq, run, HttpstatOld.run, Httpstat.step, HttpstatOld.step,
    Result.End, HttpstatOld.State.End, tsub, h1]

/-- C10 amended witness at the concrete timestamps 1..9. -/
theorem revisions_agree_fresh_full_witness :
    ((HttpstatOld.run (fullSeq 1 2 3 4 5 6 7 8)).End 9).NameLookup =
      ((run (fullSeq 1 2 3 4 5 6 7 8)).End 9).NameLookup ∧
    ((HttpstatOld.run (fullSeq 1 2 3 4 5 6 7 8)).End 9).Connect =
      ((run (fullSeq 1 2 3 4 5 6 7 8)).End 9).Connect ∧
    ((HttpstatOld.run (fullSeq 1 2 3 4 5 6 7 8)).End 9).PreTransfer =
      ((run (fullSeq 1 2 3 4 5 6 7 8)).End 9).PreTransfer ∧
    ((HttpstatOld.run (fullSeq 1 2 3 4 5 6 7 8)).End 9).StartTransfer =
      ((run (fullSeq 1 2 3 4 5 6 7 8)).End 9).StartTransfer ∧
    ((HttpstatOld.run (fullSeq 1 2 3 4 5 6 7 8)).End 9).total =
      ((run (fullSeq 1 2 3 4 5 6 7 8)).End 9).total :=
  revisions_agree_fresh_full 1 2 3 4 5 6 7 8 9 (by decide) (by decide)
    (by decide) (by decide) (by decide) (by decide) (by decide) (by decide)
    (by decide)
